import Mathlib

/-!
Verification of the `new-component` scaffolding CLI.

The development shallowly embeds the three source files:

* `src/utils.js`   — `formatComponentName`, `requireOptional`
* `src/helpers.js` — `getConfig`, `createParentDirectoryIfNecessary`
* `src/index.js`   — validation, collision check and the write pipeline

Strings are Lean `String`s / `List Char`; the filesystem and the
injected I/O failures are explicit parameters of the pipeline function.
-/

namespace NewComponent

/-! ## Character classes, from the regexes in `src/utils.js` and `src/index.js` -/

/-- Character class `[a-z0-9]` of the kebab regex
`/([a-z0-9])([A-Z])/g` in `formatComponentName`, by ASCII code point. -/
def isLowerDigit (c : Char) : Bool :=
  (97 ≤ c.toNat && c.toNat ≤ 122) || (48 ≤ c.toNat && c.toNat ≤ 57)

/-- Character class `[A-Z]`, by ASCII code point. -/
def isUpperAZ (c : Char) : Bool :=
  65 ≤ c.toNat && c.toNat ≤ 90

/-- Character class `[a-zA-Z0-9]` of the PascalCase validation regex
`/^[A-Z][a-zA-Z0-9]*$/` in `src/index.js`. -/
def isAsciiLetterOrDigit (c : Char) : Bool :=
  isUpperAZ c || isLowerDigit c

/-- ASCII fragment of JavaScript `String.prototype.toLowerCase`, applied
per character.  The only strings the program lowercases are PascalCase
names and the hyphens inserted between their words, all ASCII. -/
def jsToLowerChar (c : Char) : Char :=
  if 65 ≤ c.toNat && c.toNat ≤ 90 then Char.ofNat (c.toNat + 32) else c

/-! ## `formatComponentName` (`src/utils.js`) -/

/-- One global-replace pass of `name.replace(/([a-z0-9])([A-Z])/g, '$1-$2')`:
scan left to right; when a lower-case letter or digit is immediately
followed by an upper-case letter, emit both with a hyphen in between and
resume scanning after the matched pair (the regex engine consumes both
characters of a match); otherwise emit one character and move on. -/
def kebabScan : List Char → List Char
  | [] => []
  | [c] => [c]
  | c₁ :: c₂ :: rest =>
    if isLowerDigit c₁ && isUpperAZ c₂ then
      c₁ :: '-' :: c₂ :: kebabScan rest
    else
      c₁ :: kebabScan (c₂ :: rest)

/-- `formatComponentName(name, caseFormat)` from `src/utils.js`: for
`caseFormat === 'kebab'` run the regex replace and lowercase the result;
for every other `caseFormat` value return `name` unchanged.  The model
is a total function, matching the source, which performs no validation
of `caseFormat` and can only throw when `name` itself is not a string
(that case is handled at the pipeline level, where the argument may be
absent). -/
def formatComponentName (name caseFormat : String) : String :=
  if caseFormat == "kebab" then
    String.mk ((kebabScan name.data).map jsToLowerChar)
  else
    name

/-- Spec-side kebab transformation, following the spec's words only
(§4.1): "inserts a hyphen at every boundary where a lowercase letter or
digit is immediately followed by an uppercase letter, then lowercases
the entire string".  Every qualifying boundary receives a hyphen; no
characters are skipped. -/
def kebabSpecInsert : List Char → List Char
  | [] => []
  | [c] => [c]
  | c₁ :: c₂ :: rest =>
    if isLowerDigit c₁ && isUpperAZ c₂ then
      c₁ :: '-' :: kebabSpecInsert (c₂ :: rest)
    else
      c₁ :: kebabSpecInsert (c₂ :: rest)

/-- Spec-side formatter for the kebab case policy (see `kebabSpecInsert`). -/
def kebabCaseSpec (name : String) : String :=
  String.mk ((kebabSpecInsert name.data).map jsToLowerChar)

/-- The PascalCase validation regex `/^[A-Z][a-zA-Z0-9]*$/` on a
character list: nonempty, first character upper-case, remaining
characters letters or digits. -/
def isPascalList : List Char → Bool
  | [] => false
  | c :: rest => isUpperAZ c && rest.all isAsciiLetterOrDigit

/-- `/^[A-Z][a-zA-Z0-9]*$/.test(componentName)` from `src/index.js`. -/
def isPascalCase (name : String) : Bool :=
  isPascalList name.data

/-! ## Template rendering (`src/index.js`, `template.replace(/COMPONENT_NAME/g, componentName)`) -/

/-- The literal placeholder token of the template contract. -/
def componentNameToken : List Char :=
  ['C', 'O', 'M', 'P', 'O', 'N', 'E', 'N', 'T', '_', 'N', 'A', 'M', 'E']

/-- Fuel-indexed scan of `template.replace(/COMPONENT_NAME/g, rep)`:
at each position, if the literal token starts here, emit `rep` and
resume after the token (the regex engine consumes the match); otherwise
emit the character and move one position on.  Each step consumes at
least one character of the template, so fuel equal to the template's
length (as supplied by `renderTemplate`) is never exhausted. -/
def renderTemplateAux (rep : List Char) : Nat → List Char → List Char
  | 0, l => l
  | _ + 1, [] => []
  | fuel + 1, c :: rest =>
    if componentNameToken.isPrefixOf (c :: rest) then
      rep ++ renderTemplateAux rep fuel ((c :: rest).drop componentNameToken.length)
    else
      c :: renderTemplateAux rep fuel rest

/-- `template.replace(/COMPONENT_NAME/g, rep)`: global, case-sensitive,
left-to-right, non-overlapping replacement of the literal token.
(`rep` is a PascalCase name in the program, so the JavaScript `$`
substitution patterns cannot occur in it.) -/
def renderTemplate (rep tpl : List Char) : List Char :=
  renderTemplateAux rep tpl.length tpl

/-! ## Configuration resolution (`src/utils.js` `requireOptional`, `src/helpers.js` `getConfig`) -/

/-- A JavaScript object as read from a JSON override file, reduced to
its string-valued entries (the only values the configuration keys use).
Earlier entries shadow later ones under `objGet`. -/
abbrev Obj := List (String × String)

/-- Property lookup on a merged object. -/
def objGet (o : Obj) (k : String) : Option String :=
  (o.find? fun p => p.1 == k).map fun p => p.2

/-- `Object.assign(a, b)` observed through `objGet`: every key of `b`
wins over the same key of `a`. -/
def objAssign (a b : Obj) : Obj :=
  b ++ a

/-- The built-in defaults of `getConfig` in `src/helpers.js`. -/
def defaultConfig : Obj :=
  [("lang", "js"), ("dir", "src/components"), ("fileNameCase", "pascal")]

/-- Outcome of reading one optional override file: the file may be
absent (`fs.readFile` rejects with `ENOENT`), unreadable for another
reason, readable but not valid JSON (`JSON.parse` throws), or readable
and valid. -/
inductive OverrideFile
  | absent
  | unreadable
  | invalidJson
  | valid (o : Obj)

/-- `requireOptional` from `src/utils.js`: `JSON.parse(await
readFilePromise(filePath))`, swallowing exactly the `ENOENT` error (the
function then returns `undefined`, modelled `none`) and rethrowing
every other read or parse error. -/
def requireOptional : OverrideFile → Except String (Option Obj)
  | .absent => .ok none
  | .unreadable => .error "read error"
  | .invalidJson => .error "JSON.parse SyntaxError"
  | .valid o => .ok (some o)

/-- `getConfig` from `src/helpers.js`:
`Object.assign({}, defaults, globalOverrides, localOverrides)` where the
two override objects come from `requireOptional` on the global and the
project-local config file (an `undefined` source is skipped by
`Object.assign`, modelled `Option.getD [] `). -/
def getConfig (globalFile localFile : OverrideFile) : Except String Obj := do
  let globalOverrides ← requireOptional globalFile
  let localOverrides ← requireOptional localFile
  return objAssign (objAssign (objAssign ([] : Obj) defaultConfig)
    (globalOverrides.getD [])) (localOverrides.getD [])

/-! ## The pipeline (`src/index.js`) -/

/-- The commander options consumed by the pipeline, already resolved
(CLI flags default to the merged configuration; CLI argument parsing is
an external collaborator per spec §1).  The source calls the third
field `options.case`; `case` is reserved in Lean. -/
structure Options where
  lang : String
  dir : String
  caseFormat : String

/-- The two existence facts the pipeline queries of the filesystem:
`fs.existsSync(path.resolve(options.dir))` (the parent directory) and
`fs.existsSync(path.resolve(componentDir))` (the component directory).
On a real filesystem the component directory can only exist when its
parent does. -/
structure Fs where
  parentDirExists : Bool
  componentDirExists : Bool

/-- Injected success or failure of each I/O step of the run:
`fs.mkdirSync` on the parent directory, `mkDirPromise` on the component
directory, `readFilePromiseRelative` on the template (`none` = read
failure), and the two `writeFilePromise` calls. -/
structure Env where
  parentMkDirOk : Bool
  mkDirOk : Bool
  templateText : Option String
  writeComponentOk : Bool
  writeIndexOk : Bool

/-- Filesystem mutations the run can perform, in the order performed. -/
inductive FsAction
  | mkDir (dir : String)
  | writeFile (path content : String)
  deriving DecidableEq

/-- Terminal outcome of a run of `src/index.js`.  `crash` is an
unhandled exception (the script exits before reaching its error
handling); `ioError` is a rejection of the promise chain, reported by
the final `.catch(console.error)`. -/
inductive Outcome
  | crash
  | validationError
  | collisionError
  | ioError
  | configError
  | success
  deriving DecidableEq

/-- The run of `src/index.js` after configuration resolution, returning
the terminal outcome, the filesystem mutations in order, and the
`logItemCompletion` events in order.  It mirrors the source line by
line:

1. `fileName = formatComponentName(componentName, options.case)` —
   with no argument, `componentName` is `undefined`; for the kebab
   case format `formatComponentName` then throws a `TypeError`
   (`name.replace` on `undefined`), before anything else happens;
2. `if (!componentName)` and the PascalCase test — validation errors
   terminate the run (`process.exit`) with no filesystem effect;
3. `createParentDirectoryIfNecessary(options.dir)` — creates the
   parent directory when absent (a synchronous throw is unhandled);
4. the collision check on the resolved component directory;
5. the promise chain: `mkDirPromise(componentDir)`, template read,
   `logItemCompletion('Directory created.')`, placeholder replacement,
   component file write, `logItemCompletion('Component built and saved
   to disk.')`, index file write, `logItemCompletion('Index file built
   and saved to disk.')`; any rejection skips to `.catch`.

The external prettifier (spec §1: out of scope) is modelled as the
identity on file contents. -/
def scaffold (componentName? : Option String) (opts : Options) (fs : Fs) (env : Env) :
    Outcome × List FsAction × List String :=
  match componentName? with
  | none =>
    if opts.caseFormat == "kebab" then
      (.crash, [], [])
    else
      (.validationError, [], [])
  | some name =>
    let fileName := formatComponentName name opts.caseFormat
    let fileExtension := if opts.lang == "js" then "jsx" else "tsx"
    let indexExtension := if opts.lang == "js" then "js" else "ts"
    let componentDir := opts.dir ++ "/" ++ fileName
    let filePath := componentDir ++ "/" ++ fileName ++ "." ++ fileExtension
    let indexPath := componentDir ++ "/index." ++ indexExtension
    let indexTemplate := "export * from './" ++ fileName ++ "';\n"
    if name == "" then
      (.validationError, [], [])
    else if !(isPascalCase name) then
      (.validationError, [], [])
    else if !fs.parentDirExists && !env.parentMkDirOk then
      (.crash, [], [])
    else
      let parentActions : List FsAction :=
        if fs.parentDirExists then [] else [.mkDir opts.dir]
      if fs.componentDirExists then
        (.collisionError, parentActions, [])
      else if !env.mkDirOk then
        (.ioError, parentActions, [])
      else
        match env.templateText with
        | none => (.ioError, parentActions ++ [.mkDir componentDir], [])
        | some tpl =>
          let rendered := String.mk (renderTemplate name.data tpl.data)
          if !env.writeComponentOk then
            (.ioError, parentActions ++ [.mkDir componentDir], ["Directory created."])
          else if !env.writeIndexOk then
            (.ioError,
              parentActions ++ [.mkDir componentDir, .writeFile filePath rendered],
              ["Directory created.", "Component built and saved to disk."])
          else
            (.success,
              parentActions ++ [.mkDir componentDir, .writeFile filePath rendered,
                .writeFile indexPath indexTemplate],
              ["Directory created.", "Component built and saved to disk.",
                "Index file built and saved to disk."])

/-- Commander option defaults, read off the merged configuration
object (`config.lang`, `config.dir`, `config.fileNameCase` in
`src/index.js`).  The defaults object guarantees all three lookups
succeed, so the fallback is never consulted. -/
def optionsOfConfig (cfg : Obj) : Options :=
  { lang := (objGet cfg "lang").getD ""
    dir := (objGet cfg "dir").getD ""
    caseFormat := (objGet cfg "fileNameCase").getD "" }

/-- The whole script: `const config = await getConfig()` runs first and
an error there (a top-level await rejection) terminates the process
before any other step; otherwise the pipeline runs with options
defaulted from the configuration. -/
def program (globalFile localFile : OverrideFile) (componentName? : Option String)
    (fs : Fs) (env : Env) : Outcome × List FsAction × List String :=
  match getConfig globalFile localFile with
  | .error _ => (.configError, [], [])
  | .ok cfg => scaffold componentName? (optionsOfConfig cfg) fs env

/-! ## Helper lemmas: the kebab regex scan -/

/-- An upper-case letter is not in the class `[a-z0-9]`; the regex can
therefore never start a new match at the upper-case character it has
just consumed. -/
theorem upper_not_lowerDigit (c : Char) (h : isUpperAZ c = true) :
    isLowerDigit c = false := by
  simp only [isUpperAZ, Bool.and_eq_true, decide_eq_true_eq] at h
  simp only [isLowerDigit, Bool.or_eq_false_iff, Bool.and_eq_false_iff,
    decide_eq_false_iff_not, not_le]
  omega

/-- The spec-side insertion never puts a hyphen after an upper-case
letter, since the boundary condition needs a lower-case letter or digit
on the left. -/
theorem kebabSpecInsert_upper_cons (c : Char) (l : List Char) (h : isUpperAZ c = true) :
    kebabSpecInsert (c :: l) = c :: kebabSpecInsert l := by
  cases l with
  | nil => rfl
  | cons c' l' => simp [kebabSpecInsert, upper_not_lowerDigit c h]

/-- The regex global replace agrees with the spec's boundary-insertion
description on every string: consuming the matched pair skips no
boundary, because the consumed second character is upper-case and so can
never open the next match. -/
theorem kebabScan_eq_spec : ∀ l : List Char, kebabScan l = kebabSpecInsert l
  | [] => rfl
  | [_] => rfl
  | c₁ :: c₂ :: rest => by
    simp only [kebabScan, kebabSpecInsert]
    by_cases h : (isLowerDigit c₁ && isUpperAZ c₂) = true
    · have hup : isUpperAZ c₂ = true := by
        simp only [Bool.and_eq_true] at h
        exact h.2
      rw [if_pos h, if_pos h, kebabSpecInsert_upper_cons c₂ rest hup,
        kebabScan_eq_spec rest]
    · rw [if_neg h, if_neg h, kebabScan_eq_spec (c₂ :: rest)]

/-- C1: for every PascalCase string, `formatComponentName(name, "kebab")`
equals the string obtained by inserting a hyphen at every boundary where
a lower-case letter or digit is immediately followed by an upper-case
letter and then lowercasing everything; in particular "MyComponent" maps
to "my-component", "Button" to "button", and runs of consecutive
upper-case letters such as "HTTPServer" receive no internal hyphen. -/
theorem formatComponentName_kebab_correct :
    (∀ name : String, isPascalCase name = true →
        formatComponentName name "kebab" = kebabCaseSpec name) ∧
    formatComponentName "MyComponent" "kebab" = "my-component" ∧
    formatComponentName "Button" "kebab" = "button" ∧
    formatComponentName "HTTPServer" "kebab" = "httpserver" := by
  refine ⟨fun name _ => ?_, by decide, by decide, by decide⟩
  have h : formatComponentName name "kebab"
      = String.mk ((kebabScan name.data).map jsToLowerChar) := rfl
  rw [h, kebabScan_eq_spec]
  rfl

/-- Witness for C1 at the concrete input "MyComponent". -/
theorem formatComponentName_kebab_correct_witness :
    isPascalCase "MyComponent" = true ∧
    formatComponentName "MyComponent" "kebab" = kebabCaseSpec "MyComponent" :=
  ⟨by decide, formatComponentName_kebab_correct.1 "MyComponent" (by decide)⟩

/-- C10: for every string name and every case format other than the
exact string "kebab" — "pascal", an invalid value, anything —
`formatComponentName` is the identity on the name; the formatter never
rejects an unknown case format (it is a total function). -/
theorem formatComponentName_non_kebab_identity (name caseFormat : String)
    (h : caseFormat ≠ "kebab") :
    formatComponentName name caseFormat = name := by
  simp [formatComponentName, h]

/-- Witness for C10 at the concrete input ("MyComponent", "KEBAB"),
a value the CLI's case-insensitive option regex accepts verbatim. -/
theorem formatComponentName_non_kebab_identity_witness :
    ("KEBAB" : String) ≠ "kebab" ∧
    formatComponentName "MyComponent" "KEBAB" = "MyComponent" :=
  ⟨by decide, formatComponentName_non_kebab_identity "MyComponent" "KEBAB" (by decide)⟩

/-! ## Helper lemmas: configuration merge -/

/-- Lookup distributes over concatenation of the merged representation:
the earlier (higher-precedence) object is consulted first. -/
theorem objGet_append (a b : Obj) (k : String) :
    objGet (a ++ b) k = (objGet a k).or (objGet b k) := by
  simp only [objGet, List.find?_append]
  cases a.find? fun p => p.1 == k <;> simp [Option.or]

/-- C2: `getConfig` merges per key with the later source winning, in
the order defaults < global override < local override; with the
built-in defaults, a global override `lang = ts` and a local override
`dir = lib`, the resolved configuration is
`lang = ts, dir = lib, fileNameCase = pascal`. -/
theorem getConfig_merge_precedence :
    (∀ (a b : Obj) (k : String),
        objGet (objAssign a b) k = (objGet b k).or (objGet a k)) ∧
    (getConfig (.valid [("lang", "ts")]) (.valid [("dir", "lib")])).map
        (fun cfg => (objGet cfg "lang", objGet cfg "dir", objGet cfg "fileNameCase"))
      = .ok (some "ts", some "lib", some "pascal") := by
  constructor
  · intro a b k
    simpa [objAssign] using objGet_append b a k
  · rfl

/-- C7: an absent override file contributes nothing (it is
indistinguishable from an empty override object, and `requireOptional`
returns successfully), while an override file that is unreadable or
fails to parse as JSON makes the whole run terminate with a
configuration error before any filesystem mutation, whichever of the
two files it is. -/
theorem config_load_error_handling :
    requireOptional .absent = .ok none ∧
    (∀ g, getConfig g .absent = getConfig g (.valid [])) ∧
    (∀ l, getConfig .absent l = getConfig (.valid []) l) ∧
    (∀ l name? fs env,
        program .invalidJson l name? fs env = (.configError, [], [])) ∧
    (∀ l name? fs env,
        program .unreadable l name? fs env = (.configError, [], [])) ∧
    (∀ g name? fs env,
        program g .invalidJson name? fs env = (.configError, [], [])) ∧
    (∀ g name? fs env,
        program g .unreadable name? fs env = (.configError, [], [])) := by
  refine ⟨rfl, fun g => ?_, fun l => ?_, fun l n fs env => ?_, fun l n fs env => ?_,
    fun g n fs env => ?_, fun g n fs env => ?_⟩
  · cases g <;> rfl
  · cases l <;> rfl
  · rfl
  · rfl
  · cases g <;> rfl
  · cases g <;> rfl

/-- C8 counterexample: with a local override supplying the unknown key
`foo` and the out-of-domain value `python` for `lang`, the resolved
configuration keeps both — `getConfig` neither drops unknown keys nor
checks domain constraints, contradicting the claim. -/
theorem getConfig_validation_counterexample :
    (getConfig (.valid []) (.valid [("lang", "python"), ("foo", "bar")])).map
        (fun cfg => (objGet cfg "foo", objGet cfg "lang"))
      = .ok (some "bar", some "python") ∧
    ¬ ((getConfig (.valid []) (.valid [("lang", "python"), ("foo", "bar")])).map
          (fun cfg => objGet cfg "foo") = .ok none ∧
       ((getConfig (.valid []) (.valid [("lang", "python"), ("foo", "bar")])).map
            (fun cfg => objGet cfg "lang") = .ok (some "js") ∨
        (getConfig (.valid []) (.valid [("lang", "python"), ("foo", "bar")])).map
            (fun cfg => objGet cfg "lang") = .ok (some "ts"))) := by
  constructor
  · rfl
  · intro h
    rcases h with ⟨h1, _⟩
    have h2 : (Except.ok (some "bar") : Except String (Option String)) = .ok none := h1
    simp at h2

/-- C8 amended: `getConfig` copies every key of the override files into
the resolved configuration — unknown keys included — and applies no
domain validation to the values; each key resolves to exactly one value
(the local override's if it sets the key, else the global override's,
else the default's, which exists for every known field), but that value
is whatever the winning source supplied. -/
theorem getConfig_key_passthrough (g l : Obj) (k : String) :
    (getConfig (.valid g) (.valid l)).map (fun cfg => objGet cfg k)
      = .ok (((objGet l k).or (objGet g k)).or (objGet defaultConfig k)) := by
  have h1 : getConfig (.valid g) (.valid l)
      = .ok (l ++ (g ++ (defaultConfig ++ ([] : Obj)))) := rfl
  rw [h1]
  show Except.ok (objGet (l ++ (g ++ (defaultConfig ++ ([] : Obj)))) k) = _
  simp only [List.append_nil, objGet_append, Option.or_assoc]

/-! ## Helper lemmas: template rendering -/

/-- An upper-case letter is not the underscore. -/
theorem upper_ne_underscore (c : Char) (h : isUpperAZ c = true) : (c != '_') = true := by
  rcases eq_or_ne c '_' with e | e
  · subst e
    exact absurd h (by decide)
  · simpa [bne_iff_ne] using e

/-- A letter or digit is not the underscore. -/
theorem letterOrDigit_ne_underscore (c : Char) (h : isAsciiLetterOrDigit c = true) :
    (c != '_') = true := by
  rcases eq_or_ne c '_' with e | e
  · subst e
    exact absurd h (by decide)
  · simpa [bne_iff_ne] using e

/-- A PascalCase name contains no underscore. -/
theorem pascal_no_underscore (name : String) (h : isPascalCase name = true) :
    name.data.all (fun c => c != '_') = true := by
  unfold isPascalCase at h
  cases hd : name.data with
  | nil => simp
  | cons c rest =>
    rw [hd] at h
    simp only [isPascalList, Bool.and_eq_true] at h
    rw [List.all_cons, Bool.and_eq_true]
    refine ⟨upper_ne_underscore c h.1, List.all_eq_true.mpr fun x hx => ?_⟩
    exact letterOrDigit_ne_underscore x (List.all_eq_true.mp h.2 x hx)

/-- If the replacement text has no underscore and erasing every
replaced token occurrence from the template leaves no underscore, then
the rendered output has no underscore: the scan visits the same
positions whatever the replacement text is, so the output is the
underscore-free leftover characters interleaved with copies of the
underscore-free replacement. -/
theorem renderTemplateAux_no_underscore (rep : List Char)
    (hrep : rep.all (fun c => c != '_') = true) :
    ∀ (fuel : Nat) (l : List Char),
      (renderTemplateAux [] fuel l).all (fun c => c != '_') = true →
      (renderTemplateAux rep fuel l).all (fun c => c != '_') = true := by
  intro fuel
  induction fuel with
  | zero =>
    intro l h
    simpa [renderTemplateAux] using h
  | succ n ih =>
    intro l h
    cases l with
    | nil => simp [renderTemplateAux]
    | cons c rest =>
      by_cases hp : componentNameToken.isPrefixOf (c :: rest) = true
      · simp only [renderTemplateAux, if_pos hp, List.nil_append] at h
        simp only [renderTemplateAux, if_pos hp, List.all_append, Bool.and_eq_true]
        exact ⟨hrep, ih _ h⟩
      · simp only [renderTemplateAux, if_neg hp, List.all_cons, Bool.and_eq_true] at h
        simp only [renderTemplateAux, if_neg hp, List.all_cons, Bool.and_eq_true]
        exact ⟨h.1, ih _ h.2⟩

/-- C5 amended: rendering replaces every occurrence of the literal
token `COMPONENT_NAME` with the original PascalCase component name in
one left-to-right pass, and for a template in which every underscore
lies inside a replaced token occurrence (equivalently: replacing every
token occurrence with the empty string leaves no underscore) the
rendered output contains zero occurrences of the token.  Without that
proviso the substituted name can combine with adjacent template text
into a fresh token occurrence (see the counterexample). -/
theorem renderTemplate_amended_no_token (name tpl : String)
    (hname : isPascalCase name = true)
    (hcov : (renderTemplate [] tpl.data).all (fun c => c != '_') = true) :
    ¬ componentNameToken <:+: renderTemplate name.data tpl.data := by
  intro hinf
  have hall : (renderTemplate name.data tpl.data).all (fun c => c != '_') = true :=
    renderTemplateAux_no_underscore name.data (pascal_no_underscore name hname)
      tpl.data.length tpl.data hcov
  have hmem : ('_' : Char) ∈ renderTemplate name.data tpl.data :=
    hinf.subset (by decide)
  have hx := List.all_eq_true.mp hall _ hmem
  simp at hx

/-- Witness for the amended C5: the name "Button" and a template
containing the token twice, with no underscore outside the tokens; the
output contains no token occurrence. -/
theorem renderTemplate_amended_no_token_witness :
    isPascalCase "Button" = true ∧
    (renderTemplate []
        "const COMPONENT_NAME = 1; export default COMPONENT_NAME;".data).all
      (fun c => c != '_') = true ∧
    ¬ componentNameToken <:+:
        renderTemplate "Button".data
          "const COMPONENT_NAME = 1; export default COMPONENT_NAME;".data :=
  ⟨by decide, by decide,
    renderTemplate_amended_no_token "Button"
      "const COMPONENT_NAME = 1; export default COMPONENT_NAME;"
      (by decide) (by decide)⟩

/-- C5 counterexample: the PascalCase name "COMPONENT" and the template
"COMPONENT_NAME_NAME", which contains the token once; every occurrence
of the token in the template is replaced, yet the output
"COMPONENT_NAME" is itself an occurrence of the token, so the rendered
output does not contain zero remaining occurrences as the claim
states. -/
theorem renderTemplate_token_reappears :
    isPascalCase "COMPONENT" = true ∧
    componentNameToken <:+: "COMPONENT_NAME_NAME".data ∧
    renderTemplate "COMPONENT".data "COMPONENT_NAME_NAME".data
      = "COMPONENT_NAME".data ∧
    componentNameToken <:+:
      renderTemplate "COMPONENT".data "COMPONENT_NAME_NAME".data := by
  refine ⟨by decide, by decide, by decide, by decide⟩

/-! ## Helper lemmas: the pipeline -/

/-- A PascalCase name is nonempty. -/
theorem pascal_ne_empty (name : String) (h : isPascalCase name = true) : name ≠ "" := by
  intro e
  rw [e] at h
  exact absurd h (by decide)

/-- C3: evaluation at the failing input.  With no component name
supplied and the case format resolved to "kebab" the run crashes with
an unhandled TypeError inside `formatComponentName` (called on
`undefined` before the validation checks) instead of reporting a
validation error; with the default "pascal" case format, and for a
non-PascalCase name, the validation error is reported as claimed.  In
every case there is no filesystem effect. -/
theorem scaffold_missing_name_behavior :
    scaffold none ⟨"js", "src/components", "kebab"⟩ ⟨true, false⟩
        ⟨true, true, some "TPL", true, true⟩ = (.crash, [], []) ∧
    scaffold none ⟨"js", "src/components", "pascal"⟩ ⟨true, false⟩
        ⟨true, true, some "TPL", true, true⟩ = (.validationError, [], []) ∧
    scaffold (some "") ⟨"js", "src/components", "kebab"⟩ ⟨true, false⟩
        ⟨true, true, some "TPL", true, true⟩ = (.validationError, [], []) ∧
    scaffold (some "myComponent") ⟨"js", "src/components", "pascal"⟩ ⟨true, false⟩
        ⟨true, true, some "TPL", true, true⟩ = (.validationError, [], []) := by
  refine ⟨rfl, rfl, rfl, by decide⟩

/-- C4: when the fully resolved component directory already exists at
the collision check (on a real filesystem its parent then exists too),
the run terminates with a collision error, performing no filesystem
mutation at all — in particular the pre-existing directory is left
untouched. -/
theorem scaffold_collision_no_effect (name : String) (opts : Options) (fs : Fs) (env : Env)
    (hname : isPascalCase name = true)
    (hcol : fs.componentDirExists = true)
    (hpar : fs.parentDirExists = true) :
    scaffold (some name) opts fs env = (.collisionError, [], []) := by
  have hne : name ≠ "" := pascal_ne_empty name hname
  simp [scaffold, hname, hcol, hpar, hne]

/-- Witness for C4: Scenario E, `src/components/Button` already
exists. -/
theorem scaffold_collision_no_effect_witness :
    isPascalCase "Button" = true ∧
    scaffold (some "Button") ⟨"js", "src/components", "pascal"⟩ ⟨true, true⟩
        ⟨true, true, some "TPL", true, true⟩ = (.collisionError, [], []) :=
  ⟨by decide,
    scaffold_collision_no_effect "Button" ⟨"js", "src/components", "pascal"⟩
      ⟨true, true⟩ ⟨true, true, some "TPL", true, true⟩ (by decide) rfl rfl⟩

/-- C6: a successful run writes exactly two files: the component file
`<dir>/<F>/<F>.jsx` (for lang "js") or `<dir>/<F>/<F>.tsx` (for lang
"ts") holding the rendered template, and the index file
`<dir>/<F>/index.js` respectively `index.ts` holding the re-export
statement referencing the formatted name `F`, so that the import path
matches the on-disk file name.  The only other mutations are the
component directory creation and, when missing, the parent directory
creation. -/
theorem scaffold_success_writes (name : String) (opts : Options) (fs : Fs) (env : Env)
    (tpl : String)
    (hname : isPascalCase name = true)
    (hcol : fs.componentDirExists = false)
    (hpmk : env.parentMkDirOk = true)
    (hmk : env.mkDirOk = true)
    (htpl : env.templateText = some tpl)
    (hwc : env.writeComponentOk = true)
    (hwi : env.writeIndexOk = true) :
    (opts.lang = "js" →
      scaffold (some name) opts fs env =
        (.success,
          (if fs.parentDirExists then [] else [.mkDir opts.dir]) ++
            [.mkDir (opts.dir ++ "/" ++ formatComponentName name opts.caseFormat),
             .writeFile (opts.dir ++ "/" ++ formatComponentName name opts.caseFormat
                 ++ "/" ++ formatComponentName name opts.caseFormat ++ ".jsx")
               (String.mk (renderTemplate name.data tpl.data)),
             .writeFile (opts.dir ++ "/" ++ formatComponentName name opts.caseFormat
                 ++ "/index.js")
               ("export * from './" ++ formatComponentName name opts.caseFormat ++ "';\n")],
          ["Directory created.", "Component built and saved to disk.",
            "Index file built and saved to disk."])) ∧
    (opts.lang = "ts" →
      scaffold (some name) opts fs env =
        (.success,
          (if fs.parentDirExists then [] else [.mkDir opts.dir]) ++
            [.mkDir (opts.dir ++ "/" ++ formatComponentName name opts.caseFormat),
             .writeFile (opts.dir ++ "/" ++ formatComponentName name opts.caseFormat
                 ++ "/" ++ formatComponentName name opts.caseFormat ++ ".tsx")
               (String.mk (renderTemplate name.data tpl.data)),
             .writeFile (opts.dir ++ "/" ++ formatComponentName name opts.caseFormat
                 ++ "/index.ts")
               ("export * from './" ++ formatComponentName name opts.caseFormat ++ "';\n")],
          ["Directory created.", "Component built and saved to disk.",
            "Index file built and saved to disk."])) := by
  have hne : name ≠ "" := pascal_ne_empty name hname
  constructor
  · intro hlang
    simp [scaffold, hname, hcol, hpmk, hmk, htpl, hwc, hwi, hne, hlang,
      String.append_assoc]
  · intro hlang
    simp [scaffold, hname, hcol, hpmk, hmk, htpl, hwc, hwi, hne, hlang,
      String.append_assoc]

/-- Witness for C6: Scenario A — name "Button", lang "js", dir
"src/components", case "pascal" — creates `src/components/Button`,
writes `src/components/Button/Button.jsx` with the name substituted
into the template, and `src/components/Button/index.js` containing the
re-export of `./Button`. -/
theorem scaffold_success_writes_witness :
    isPascalCase "Button" = true ∧
    scaffold (some "Button") ⟨"js", "src/components", "pascal"⟩ ⟨true, false⟩
        ⟨true, true, some "const COMPONENT_NAME = 1;", true, true⟩ =
      (.success,
        [.mkDir "src/components/Button",
         .writeFile "src/components/Button/Button.jsx" "const Button = 1;",
         .writeFile "src/components/Button/index.js" "export * from './Button';\n"],
        ["Directory created.", "Component built and saved to disk.",
          "Index file built and saved to disk."]) :=
  ⟨by decide,
    (scaffold_success_writes "Button" ⟨"js", "src/components", "pascal"⟩ ⟨true, false⟩
      ⟨true, true, some "const COMPONENT_NAME = 1;", true, true⟩
      "const COMPONENT_NAME = 1;" (by decide) rfl rfl rfl rfl rfl rfl).1 rfl⟩

/-- C9: once the collision check has passed, the pipeline performs the
mutations in the fixed order component-directory creation, component
file write, index file write; each completed step is reported as a
discrete event; the first I/O failure (directory creation, template
read, either write) aborts every remaining step; and nothing performed
before the failure is undone — the mutation trace up to the failure is
kept as is, with no rollback action in the model's vocabulary. -/
theorem scaffold_step_order (name : String) (opts : Options) (fs : Fs) (env : Env)
    (tpl : String)
    (hname : isPascalCase name = true)
    (hpar : fs.parentDirExists = true)
    (hcol : fs.componentDirExists = false) :
    (env.mkDirOk = false →
      scaffold (some name) opts fs env = (.ioError, [], [])) ∧
    (env.mkDirOk = true → env.templateText = none →
      scaffold (some name) opts fs env =
        (.ioError,
          [.mkDir (opts.dir ++ "/" ++ formatComponentName name opts.caseFormat)], [])) ∧
    (env.mkDirOk = true → env.templateText = some tpl → env.writeComponentOk = false →
      scaffold (some name) opts fs env =
        (.ioError,
          [.mkDir (opts.dir ++ "/" ++ formatComponentName name opts.caseFormat)],
          ["Directory created."])) ∧
    (env.mkDirOk = true → env.templateText = some tpl → env.writeComponentOk = true →
      env.writeIndexOk = false →
      scaffold (some name) opts fs env =
        (.ioError,
          [.mkDir (opts.dir ++ "/" ++ formatComponentName name opts.caseFormat),
           .writeFile (opts.dir ++ "/" ++ formatComponentName name opts.caseFormat
               ++ "/" ++ formatComponentName name opts.caseFormat ++ "."
               ++ (if opts.lang == "js" then "jsx" else "tsx"))
             (String.mk (renderTemplate name.data tpl.data))],
          ["Directory created.", "Component built and saved to disk."])) ∧
    (env.mkDirOk = true → env.templateText = some tpl → env.writeComponentOk = true →
      env.writeIndexOk = true →
      scaffold (some name) opts fs env =
        (.success,
          [.mkDir (opts.dir ++ "/" ++ formatComponentName name opts.caseFormat),
           .writeFile (opts.dir ++ "/" ++ formatComponentName name opts.caseFormat
               ++ "/" ++ formatComponentName name opts.caseFormat ++ "."
               ++ (if opts.lang == "js" then "jsx" else "tsx"))
             (String.mk (renderTemplate name.data tpl.data)),
           .writeFile (opts.dir ++ "/" ++ formatComponentName name opts.caseFormat
               ++ "/index." ++ (if opts.lang == "js" then "js" else "ts"))
             ("export * from './" ++ formatComponentName name opts.caseFormat ++ "';\n")],
          ["Directory created.", "Component built and saved to disk.",
            "Index file built and saved to disk."])) := by
  have hne : name ≠ "" := pascal_ne_empty name hname
  refine ⟨fun hmk => ?_, fun hmk htpl => ?_, fun hmk htpl hwc => ?_,
    fun hmk htpl hwc hwi => ?_, fun hmk htpl hwc hwi => ?_⟩ <;>
    simp [scaffold, String.append_assoc, *]

/-- Witness for C9: an index-file write failure after a successful
directory creation and component write; the first two mutations are
performed in order and remain, the third never happens. -/
theorem scaffold_step_order_witness :
    isPascalCase "Button" = true ∧
    scaffold (some "Button") ⟨"js", "src/components", "pascal"⟩ ⟨true, false⟩
        ⟨true, true, some "X COMPONENT_NAME Y", true, false⟩ =
      (.ioError,
        [.mkDir "src/components/Button",
         .writeFile "src/components/Button/Button.jsx" "X Button Y"],
        ["Directory created.", "Component built and saved to disk."]) :=
  ⟨by decide,
    (scaffold_step_order "Button" ⟨"js", "src/components", "pascal"⟩ ⟨true, false⟩
      ⟨true, true, some "X COMPONENT_NAME Y", true, false⟩ "X COMPONENT_NAME Y"
      (by decide) rfl rfl).2.2.2.1 rfl rfl rfl rfl⟩

end NewComponent
